import Mathlib

/-!
Shallow embedding of the client-side selection-and-submission workflow of
`src/static/script.js` (mh-build-solver): the selection state (`addSkill`,
`removeSkill`), the catalog dropdown filter (`populateDropdown`), the
optimize-button click handler (precondition check, fetch outcome
classification, error surfacing, finally-cleanup), and the pure string
building of `displayResults` (armor slot counts, resulting-skills section).

JavaScript objects with string keys preserve insertion order, so the
`selectedSkills` object and the `skills` / `target_skills` mappings are
modelled as ordered association lists `List (String × _)`.  JS `Array.sort()`
with the default comparator converts each element to a string (an entry
`[name, level]` becomes `name ++ "," ++ level`) and compares strings by code
units, and is stable; a stable sort by that key is therefore the unique
faithful model, realised here with `List.insertionSort`.
-/

namespace MHBuild

/-! ### Selection state (script.js lines 75-86) -/

/-- Lookup `s[name]` on a JS object modelled as an ordered association list:
`none` models `undefined`. -/
def lookupSel : List (String × Nat) → String → Option Nat
  | [], _ => none
  | (n, l) :: rest, name => if n = name then some l else lookupSel rest name

/-- JS truthiness of the value read at a key: `undefined` (absent) and `0`
are falsy, every other number is truthy. -/
def jsFalsy : Option Nat → Bool
  | none => true
  | some l => l == 0

/-- Assignment `s[name] = level` on a JS object: overwrite in place when the
key is present, append when absent. -/
def setSel : List (String × Nat) → String → Nat → List (String × Nat)
  | [], name, level => [(name, level)]
  | (n, l) :: rest, name, level =>
    if n = name then (n, level) :: rest else (n, l) :: setSel rest name level

/-- The function `addSkill(name, level)` (lines 75-81): writes `level` exactly when
`!selectedSkills[name] || level > selectedSkills[name]`. -/
def addSkill (s : List (String × Nat)) (name : String) (level : Nat) :
    List (String × Nat) :=
  if jsFalsy (lookupSel s name) || decide ((lookupSel s name).getD 0 < level) then
    setSel s name level
  else s

/-- The function `removeSkill(name)` (lines 83-86): `delete selectedSkills[name]`. -/
def removeSkill (s : List (String × Nat)) (name : String) :
    List (String × Nat) :=
  s.filter (fun p => !(p.1 == name))

/-- A sequence of `addSkill` calls for one fixed name. -/
def runAdds (s : List (String × Nat)) (name : String) (levels : List Nat) :
    List (String × Nat) :=
  levels.foldl (fun st l => addSkill st name l) s

/-! ### Catalog filter (script.js lines 38-42) -/

/-- One entry of `allSkillsData`. -/
structure CatalogEntry where
  name : String
  level : Nat
  maxLevel : Nat
deriving DecidableEq

/-- The rendered label of a catalog entry, the template string
of lines 41 and 49. -/
def entryLabel (e : CatalogEntry) : String :=
  e.name ++ " " ++ toString e.level

/-- Lower-casing (`toLowerCase`) on the character list of a string. -/
def lowerChars (s : String) : List Char :=
  s.data.map Char.toLower

/-- Whether `pat` occurs at the start of `l`. -/
def charsLead : List Char → List Char → Bool
  | [], _ => true
  | _ :: _, [] => false
  | c :: cs, d :: ds => c == d && charsLead cs ds

/-- JS `String.prototype.includes`: `pat` occurs contiguously somewhere
in `l`. -/
def charsSub (pat : List Char) : List Char → Bool
  | [] => charsLead pat []
  | l@(_ :: rest) => charsLead pat l || charsSub pat rest

/-- The predicate of line 41: the lower-cased label contains the lower-cased
filter text. -/
def labelMatches (filt : String) (e : CatalogEntry) : Bool :=
  charsSub (lowerChars filt) (lowerChars (entryLabel e))

/-- The `filteredSkills` computation of `populateDropdown`
(lines 40-42): `allSkillsData.filter (...)`. -/
def filteredSkills (catalog : List CatalogEntry) (filt : String) :
    List CatalogEntry :=
  catalog.filter (labelMatches filt)

/-! ### Build result rendering (script.js lines 147-204) -/

/-- One `{name, level}` element of an armor piece's `skills` array. -/
structure SkillGrant where
  name : String
  level : Int

/-- The `slots` object of an armor piece; a missing key is `none`
(JS `undefined`). -/
structure PieceSlots where
  level_1 : Option Nat
  level_2 : Option Nat
  level_3 : Option Nat
  level_4 : Option Nat

/-- One element of `build.armor`; `slots := none` models a missing/null
`slots` property (guarded by `piece.slots || \x7b\x7d` on line 159). -/
structure ArmorPiece where
  pieceType : String
  piece_name : String
  set_name : String
  skills : List SkillGrant
  slots : Option PieceSlots

/-- One `{name, points}` element of the talisman's `skills` array. -/
structure TalismanSkill where
  name : String
  points : Int

/-- The `build.talisman` object. -/
structure Talisman where
  name : String
  skills : List TalismanSkill

/-- One element of `build.decorations`. -/
structure DecoUse where
  count : Nat
  decoName : String
  slot_level : Nat

/-- The optimizer response; the `skills` and `target_skills` mappings are
ordered association lists of their JS-object entries. -/
structure BuildResult where
  defense : Int
  armor : List ArmorPiece
  talisman : Option Talisman
  decorations : List DecoUse
  skills : List (String × Int)
  target_skills : List (String × Int)
  remaining_weighted_slots : Int

/-- The read `slots['level_k'] || 0` (line 160): an absent key displays as 0. -/
def slotCount (o : Option Nat) : Nat :=
  match o with
  | none => 0
  | some n => n

/-- The `slotsStr` template of line 160, applied to
`piece.slots || \x7b\x7d` of line 159. -/
def slotsStr (slots : Option PieceSlots) : String :=
  let s := match slots with
    | none => PieceSlots.mk none none none none
    | some s => s
  "L1:" ++ toString (slotCount s.level_1) ++
  " L2:" ++ toString (slotCount s.level_2) ++
  " L3:" ++ toString (slotCount s.level_3) ++
  " L4:" ++ toString (slotCount s.level_4)

/-- The `skillsStr` of an armor piece (lines 155-157). -/
def pieceSkillsStr (skills : List SkillGrant) : String :=
  if skills.length > 0 then
    String.intercalate ", " (skills.map (fun s => s.name ++ " +" ++ toString s.level))
  else "None"

/-- The `<li>` built for one armor piece (line 161). -/
def pieceLine (piece : ArmorPiece) : String :=
  "<li><strong>" ++ piece.pieceType ++ ":</strong> " ++ piece.piece_name ++
  " (Set: " ++ piece.set_name ++ ")<br/>&nbsp;&nbsp;Skills: " ++
  pieceSkillsStr piece.skills ++ "<br/>&nbsp;&nbsp;Slots: " ++
  slotsStr piece.slots ++ "</li>"

/-- The default-sort key of `Object.entries(finalSkills).sort()` (line 190):
JS converts the entry array `[name, level]` to the string `name + "," + level`. -/
def entryKey (p : String × Int) : List Char :=
  (p.1 ++ "," ++ toString p.2).data

/-- JS code-unit-wise string comparison, `a ≤ b`, on character lists. -/
def lexLeChars : List Char → List Char → Bool
  | [], _ => true
  | _ :: _, [] => false
  | a :: as, b :: bs =>
    if a < b then true else if b < a then false else lexLeChars as bs

/-- The comparison `Array.sort()` applies to two entries on line 190. -/
def entryLe (p q : String × Int) : Prop :=
  lexLeChars (entryKey p) (entryKey q) = true

instance : DecidableRel entryLe := fun p q => by
  unfold entryLe; infer_instance

/-- The sort `Object.entries(finalSkills).sort()` (line 190): a stable sort by the
JS default string key.  JS sort is stable, so a stable sort by `entryLe`
is its unique model. -/
def sortEntries (skills : List (String × Int)) : List (String × Int) :=
  List.insertionSort entryLe skills

/-- The lookup `targetSkills[skill] || 0` (line 192). -/
def targetOf (targets : List (String × Int)) (skill : String) : Int :=
  match targets.find? (fun p => p.1 == skill) with
  | none => 0
  | some p => p.2

/-- The `status` string of line 194 (with `met_str` of line 193 inlined). -/
def skillStatus (level target : Int) : String :=
  if target > 0 then
    "(Target: " ++ toString target ++ " - " ++
      (if level ≥ target then "MET" else "BELOW") ++ ")"
  else ""

/-- The `<li>` of line 195 for one resulting skill. -/
def skillLine (skill : String) (level target : Int) : String :=
  "<li>" ++ skill ++ ": " ++ toString level ++ " " ++ skillStatus level target ++ "</li>"

/-- The Resulting Skills loop of lines 190-197: iterate the sorted entries
and append a line for each skill whose level is > 0. -/
def resultingSkillsHtml (finalSkills targetSkills : List (String × Int)) : String :=
  (sortEntries finalSkills).foldl
    (fun acc p =>
      if p.2 > 0 then acc ++ skillLine p.1 p.2 (targetOf targetSkills p.1) else acc)
    ""

/-- The talisman section (lines 165-174). -/
def talismanHtml (t : Option Talisman) : String :=
  "<h4>Talisman:</h4>" ++
  match t with
  | some t =>
    "<p>" ++ t.name ++ "<br/>&nbsp;&nbsp;Skills: " ++
    (if t.skills.length > 0 then
      String.intercalate ", " (t.skills.map (fun s => s.name ++ " +" ++ toString s.points))
    else "None") ++ "</p>"
  | none => "<p>None</p>"

/-- The decorations section (lines 176-185). -/
def decorationsHtml (decos : List DecoUse) : String :=
  "<h4>Decorations Used:</h4>" ++
  if decos.length > 0 then
    "<ul>" ++
    decos.foldl (fun acc item =>
      acc ++ "<li>" ++ toString item.count ++ "x " ++ item.decoName ++
        " (L" ++ toString item.slot_level ++ ")</li>") "" ++
    "</ul>"
  else "<p>None</p>"

/-- The function `displayResults(build)` (lines 147-204) as the HTML string it assigns
to the results area. -/
def displayResults (build : BuildResult) : String :=
  "<h3>Optimal Build Found</h3>" ++
  "<p><strong>Total Defense:</strong> " ++ toString build.defense ++ "</p>" ++
  "<h4>Armor Pieces:</h4><ul>" ++
  build.armor.foldl (fun acc piece => acc ++ pieceLine piece) "" ++
  "</ul>" ++
  talismanHtml build.talisman ++
  decorationsHtml build.decorations ++
  "<h4>Resulting Skills:</h4><ul>" ++
  resultingSkillsHtml build.skills build.target_skills ++
  "</ul>" ++
  "<p><strong>Total Weighted Slot Value Remaining:</strong> " ++
  toString build.remaining_weighted_slots ++ "</p>"

/-! ### Optimize-button click handler (script.js lines 105-144) -/

/-- The pieces of page state the click handler mutates. -/
structure UIState where
  errorText : String
  errorVisible : Bool
  resultsHtml : String
  loadingVisible : Bool
  optimizeDisabled : Bool

/-- How the `fetch('/api/optimize', ...)` settles, as seen by the handler's
`then`/`catch` chain: a success body parsed as a `BuildResult`; a non-ok
response whose body parsed as JSON with an optional `error` string field;
or a transport/parse failure carrying an error message. -/
inductive FetchResult where
  | ok (build : BuildResult)
  | httpError (status : Nat) (errField : Option String)
  | transportError (msg : String)

/-- Classification of one submission attempt. -/
inductive Outcome where
  | noSkillsSelected
  | success (build : BuildResult)
  | optimizationFailed (msg : String)

/-- The message of the `Error` thrown on line 128:
`err.error || \x60HTTP error! status: ...\x60`.  JS `||` takes the right
operand when `err.error` is absent or the empty string (both falsy). -/
def responseMessage (status : Nat) (errField : Option String) : String :=
  match errField with
  | some s => if s = "" then "HTTP error! status: " ++ toString status else s
  | none => "HTTP error! status: " ++ toString status

/-- Lines 113-116, run before the fetch is issued: show the loading
indicator, hide any error, clear prior results, disable the button. -/
def preFetchState (ui : UIState) : UIState :=
  { ui with loadingVisible := true, errorVisible := false,
            resultsHtml := "", optimizeDisabled := true }

/-- The `finally` block of lines 140-143: hide the loading indicator and
re-enable the button, on every exit path. -/
def settleState (ui : UIState) : UIState :=
  { ui with loadingVisible := false, optimizeDisabled := false }

/-- The `then`/`catch` chain of lines 125-139 applied to a settled fetch:
success renders the build into the results area; a non-ok response or a
transport failure surfaces `Optimization failed: <msg>` in the error area. -/
def handleFetch (ui : UIState) (fr : FetchResult) : UIState × Outcome :=
  match fr with
  | .ok build => ({ ui with resultsHtml := displayResults build }, .success build)
  | .httpError status errField =>
    let msg := responseMessage status errField
    ({ ui with errorText := "Optimization failed: " ++ msg, errorVisible := true },
     .optimizationFailed msg)
  | .transportError msg =>
    ({ ui with errorText := "Optimization failed: " ++ msg, errorVisible := true },
     .optimizationFailed msg)

/-- The whole click handler (lines 105-144), given the selection state and
how the fetch would settle.  Returns whether a network call was issued, the
final page state, and the outcome.  An empty selection (line 106:
`Object.keys(selectedSkills).length === 0`) returns at line 110 before any
fetch; otherwise the pre-fetch mutations run, the fetch settles through
`then`/`catch`, and the `finally` cleanup runs on every exit path. -/
def clickOptimize (ui : UIState) (sel : List (String × Nat)) (fr : FetchResult) :
    Bool × UIState × Outcome :=
  if sel.length = 0 then
    (false,
     { ui with errorText := "Please select at least one skill.",
               errorVisible := true, resultsHtml := "" },
     .noSkillsSelected)
  else
    let r := handleFetch (preFetchState ui) fr
    (true, settleState r.1, r.2)

/-! ### Concrete data for evaluating the theorems -/

/-- A two-entry catalog for concrete evaluation. -/
def demoCatalog : List CatalogEntry :=
  [⟨"Agitator", 1, 5⟩, ⟨"Attack Boost", 3, 7⟩]

/-- An idle page state for concrete evaluation. -/
def demoUI : UIState :=
  { errorText := "", errorVisible := false, resultsHtml := "",
    loadingVisible := false, optimizeDisabled := false }

/-! ### Lemmas on the selection state -/

theorem lookupSel_setSel_self (s : List (String × Nat)) (name : String) (level : Nat) :
    lookupSel (setSel s name level) name = some level := by
  induction s with
  | nil => simp [setSel, lookupSel]
  | cons p rest ih =>
    obtain ⟨n, l⟩ := p
    by_cases h : n = name
    · simp [setSel, h, lookupSel]
    · simp [setSel, h, lookupSel, ih]

theorem addSkill_absent (s : List (String × Nat)) (name : String) (level : Nat)
    (h : lookupSel s name = none) :
    addSkill s name level = setSel s name level := by
  simp [addSkill, h, jsFalsy]

theorem addSkill_overwrite (s : List (String × Nat)) (name : String) (l level : Nat)
    (h : lookupSel s name = some l) (hlt : l < level) :
    addSkill s name level = setSel s name level := by
  simp [addSkill, h, hlt]

theorem addSkill_noop (s : List (String × Nat)) (name : String) (l level : Nat)
    (h : lookupSel s name = some l) (h1 : 1 ≤ l) (hge : level ≤ l) :
    addSkill s name level = s := by
  have hcond : (jsFalsy (lookupSel s name) ||
      decide ((lookupSel s name).getD 0 < level)) = false := by
    rw [h]; simp [jsFalsy]; omega
  simp [addSkill, hcond]

theorem lookupSel_runAdds (name : String) (levels : List Nat) :
    ∀ (s : List (String × Nat)) (cur : Nat), 1 ≤ cur →
      lookupSel s name = some cur →
      lookupSel (runAdds s name levels) name = some (levels.foldl max cur) := by
  induction levels with
  | nil => intro s cur _ hcur; simpa [runAdds] using hcur
  | cons l ls ih =>
    intro s cur h1 hcur
    by_cases hcl : cur < l
    · have h2 : addSkill s name l = setSel s name l :=
        addSkill_overwrite s name cur l hcur hcl
      have h4 := ih (setSel s name l) l (by omega) (lookupSel_setSel_self s name l)
      have hmax : max cur l = l := by omega
      simpa [runAdds, h2, hmax] using h4
    · have h2 : addSkill s name l = s := addSkill_noop s name cur l hcur h1 (by omega)
      have h4 := ih s cur h1 hcur
      have hmax : max cur l = cur := by omega
      simpa [runAdds, h2, hmax] using h4

theorem lookupSel_cons (n : String) (l : Nat) (rest : List (String × Nat))
    (name : String) :
    lookupSel ((n, l) :: rest) name =
      if n = name then some l else lookupSel rest name := rfl

theorem removeSkill_cons (n : String) (l : Nat) (rest : List (String × Nat))
    (name : String) :
    removeSkill ((n, l) :: rest) name =
      if n = name then removeSkill rest name
      else (n, l) :: removeSkill rest name := by
  by_cases h : n = name <;> simp [removeSkill, List.filter_cons, h]

theorem lookupSel_removeSkill_self (s : List (String × Nat)) (name : String) :
    lookupSel (removeSkill s name) name = none := by
  induction s with
  | nil => rfl
  | cons p rest ih =>
    obtain ⟨n, l⟩ := p
    rw [removeSkill_cons]
    by_cases h : n = name
    · rw [if_pos h]; exact ih
    · rw [if_neg h, lookupSel_cons, if_neg h]; exact ih

theorem lookupSel_removeSkill_other (s : List (String × Nat)) (name n : String)
    (hne : n ≠ name) : lookupSel (removeSkill s name) n = lookupSel s n := by
  induction s with
  | nil => rfl
  | cons p rest ih =>
    obtain ⟨m, l⟩ := p
    rw [removeSkill_cons]
    by_cases h : m = name
    · have hmn : m ≠ n := fun e => hne (e ▸ h)
      rw [if_pos h, ih, lookupSel_cons, if_neg hmn]
    · rw [if_neg h, lookupSel_cons, lookupSel_cons, ih]

theorem removeSkill_absent (s : List (String × Nat)) (name : String)
    (h : lookupSel s name = none) : removeSkill s name = s := by
  induction s with
  | nil => rfl
  | cons p rest ih =>
    obtain ⟨n, l⟩ := p
    rw [lookupSel_cons] at h
    by_cases hn : n = name
    · rw [if_pos hn] at h; exact absurd h (by simp)
    · rw [if_neg hn] at h
      rw [removeSkill_cons, if_neg hn, ih h]

/-! ### Claim C1 -/

/-- C1: for every sequence of `addSkill(name, level)` calls on a single
skill name (levels ≥ 1), the stored level equals the maximum level ever
passed since the last removal: `addSkill` inserts when the name is absent,
overwrites when the stored level is strictly below the new one, and leaves
the whole state unchanged when the stored level is at least the new one. -/
theorem C1_addSkill_keeps_max :
    (∀ s name level, lookupSel s name = none →
      lookupSel (addSkill s name level) name = some level) ∧
    (∀ s name l level, lookupSel s name = some l → l < level →
      lookupSel (addSkill s name level) name = some level) ∧
    (∀ s name l level, lookupSel s name = some l → 1 ≤ l → level ≤ l →
      addSkill s name level = s) ∧
    (∀ s name levels, lookupSel s name = none → levels ≠ [] →
      (∀ l ∈ levels, 1 ≤ l) →
      lookupSel (runAdds s name levels) name = some (levels.foldl max 0)) := by
  refine ⟨?_, ?_, ?_, ?_⟩
  · intro s name level h
    rw [addSkill_absent s name level h, lookupSel_setSel_self]
  · intro s name l level h hlt
    rw [addSkill_overwrite s name l level h hlt, lookupSel_setSel_self]
  · intro s name l level h h1 hge
    exact addSkill_noop s name l level h h1 hge
  · intro s name levels habs hne hall
    match levels with
    | [] => exact absurd rfl hne
    | l :: ls =>
      have h1 : 1 ≤ l := hall l (by simp)
      have h2 : addSkill s name l = setSel s name l := addSkill_absent s name l habs
      have h3 := lookupSel_runAdds name ls (setSel s name l) l h1
        (lookupSel_setSel_self s name l)
      calc lookupSel (runAdds s name (l :: ls)) name
          = lookupSel (runAdds (setSel s name l) name ls) name := by
            simp [runAdds, h2]
        _ = some (ls.foldl max l) := h3
        _ = some ((l :: ls).foldl max 0) := by simp

/-- Witness for C1 at the spec's scenario: adding Agitator 3, then 2,
then 5 from an empty selection stores level 5. -/
theorem C1_addSkill_keeps_max_witness :
    lookupSel (runAdds [] "Agitator" [3, 2, 5]) "Agitator" = some 5 := by
  have h := C1_addSkill_keeps_max.2.2.2 [] "Agitator" [3, 2, 5] rfl
    (by decide) (by decide)
  simpa using h

/-! ### Claim C2 -/

/-- C2: `removeSkill(name)` deletes the entry for `name` when present
(leaving other names alone) and is a no-op otherwise, and `removeSkill(name)`
followed immediately by `addSkill(name, level)` (level ≥ 1) leaves the
selection storing exactly `level` for `name`, regardless of prior history. -/
theorem C2_remove_then_add :
    (∀ s name, lookupSel (removeSkill s name) name = none) ∧
    (∀ s name n, n ≠ name → lookupSel (removeSkill s name) n = lookupSel s n) ∧
    (∀ s name, lookupSel s name = none → removeSkill s name = s) ∧
    (∀ s name level, 1 ≤ level →
      lookupSel (addSkill (removeSkill s name) name level) name = some level) := by
  refine ⟨lookupSel_removeSkill_self, ?_, removeSkill_absent, ?_⟩
  · intro s name n hne
    exact lookupSel_removeSkill_other s name n hne
  · intro s name level _
    rw [addSkill_absent _ name level (lookupSel_removeSkill_self s name),
      lookupSel_setSel_self]

/-- Witness for C2: removing Agitator (stored at 3) and re-adding it at
level 2 stores exactly 2. -/
theorem C2_remove_then_add_witness :
    lookupSel (addSkill (removeSkill [("Agitator", 3)] "Agitator") "Agitator" 2)
      "Agitator" = some 2 :=
  C2_remove_then_add.2.2.2 [("Agitator", 3)] "Agitator" 2 (by decide)

/-! ### Claim C3 -/

theorem charsSub_nil (l : List Char) : charsSub [] l = true := by
  induction l with
  | nil => rfl
  | cons c rest ih => simp [charsSub, charsLead]

/-- C3: the catalog filter returns exactly the subsequence of entries whose
rendered label "name level" contains the filter text case-insensitively, in
the input catalog's order; the empty filter text returns all entries in
original order, and a text matching no label returns the empty sequence. -/
theorem C3_filter_is_ci_substring_subsequence :
    (∀ catalog filt, (filteredSkills catalog filt).Sublist catalog) ∧
    (∀ catalog filt e, e ∈ filteredSkills catalog filt ↔
      e ∈ catalog ∧ labelMatches filt e = true) ∧
    (∀ catalog, filteredSkills catalog "" = catalog) ∧
    (∀ catalog filt, (∀ e ∈ catalog, labelMatches filt e = false) →
      filteredSkills catalog filt = []) := by
  refine ⟨?_, ?_, ?_, ?_⟩
  · intro catalog _
    exact List.filter_sublist catalog
  · intro catalog filt e
    exact List.mem_filter
  · intro catalog
    apply List.filter_eq_self.mpr
    intro e _
    have : lowerChars "" = [] := rfl
    simp [labelMatches, this, charsSub_nil]
  · intro catalog filt h
    apply List.filter_eq_nil_iff.mpr
    intro e he
    simp [h e he]

/-- Witness for C3: on a concrete catalog the empty filter returns every
entry and the filter "zzz" returns none. -/
theorem C3_filter_is_ci_substring_subsequence_witness :
    filteredSkills demoCatalog "" = demoCatalog ∧
    filteredSkills demoCatalog "zzz" = [] :=
  ⟨C3_filter_is_ci_substring_subsequence.2.2.1 demoCatalog,
   C3_filter_is_ci_substring_subsequence.2.2.2 demoCatalog "zzz" (by decide)⟩

/-! ### Claims C4, C5, C9, C10 (the click handler) -/

theorem clickOptimize_nil (ui : UIState) (fr : FetchResult) :
    clickOptimize ui [] fr =
      (false,
       { ui with errorText := "Please select at least one skill.",
                 errorVisible := true, resultsHtml := "" },
       .noSkillsSelected) := rfl

theorem clickOptimize_cons (ui : UIState) (p : String × Nat)
    (rest : List (String × Nat)) (fr : FetchResult) :
    clickOptimize ui (p :: rest) fr =
      (true, settleState (handleFetch (preFetchState ui) fr).1,
       (handleFetch (preFetchState ui) fr).2) := rfl

/-- C4: triggering submission with an empty selection issues no network
call, surfaces the no-skills-selected message, and clears prior results;
the network request is made exactly when the selection is non-empty. -/
theorem C4_empty_selection_no_network :
    (∀ ui fr (sel : List (String × Nat)), sel = [] →
      (clickOptimize ui sel fr).1 = false ∧
      (clickOptimize ui sel fr).2.2 = Outcome.noSkillsSelected ∧
      (clickOptimize ui sel fr).2.1.errorVisible = true ∧
      (clickOptimize ui sel fr).2.1.errorText = "Please select at least one skill." ∧
      (clickOptimize ui sel fr).2.1.resultsHtml = "") ∧
    (∀ ui fr (sel : List (String × Nat)), sel ≠ [] →
      (clickOptimize ui sel fr).1 = true) := by
  constructor
  · intro ui fr sel h
    subst h
    rw [clickOptimize_nil]
    exact ⟨rfl, rfl, rfl, rfl, rfl⟩
  · intro ui fr sel h
    match sel with
    | [] => exact absurd rfl h
    | p :: rest => rw [clickOptimize_cons]

/-- Witness for C4: a concrete empty submission makes no call; a concrete
one-skill submission does. -/
theorem C4_empty_selection_no_network_witness :
    (clickOptimize demoUI [] (.transportError "x")).1 = false ∧
    (clickOptimize demoUI [("Agitator", 3)] (.transportError "x")).1 = true :=
  ⟨(C4_empty_selection_no_network.1 demoUI (.transportError "x") [] rfl).1,
   C4_empty_selection_no_network.2 demoUI (.transportError "x") [("Agitator", 3)]
     (by simp)⟩

/-- C5 as stated is false on the code: a failure body whose `error` field is
present but equal to the empty string surfaces the generic HTTP-status
message, not the present field's value "" verbatim. -/
theorem C5_counterexample_empty_error_field :
    (clickOptimize demoUI [("Agitator", 3)] (.httpError 500 (some ""))).2.2 =
      Outcome.optimizationFailed "HTTP error! status: 500" ∧
    "HTTP error! status: 500" ≠ "" := by
  exact ⟨rfl, by decide⟩

/-- C5 (amended): on a failure response whose parsed body carries a
*non-empty* error message field, exactly that message is surfaced (the
outcome is `OptimizationFailed` with that message, shown in the error
area); when the field is absent, the surfaced message is the generic
"HTTP error! status: <code>" carrying the status code. -/
theorem C5_server_error_surfaced_verbatim :
    ∀ ui status (sel : List (String × Nat)), sel ≠ [] →
      (∀ s : String, s ≠ "" →
        (clickOptimize ui sel (.httpError status (some s))).2.2 =
          Outcome.optimizationFailed s ∧
        (clickOptimize ui sel (.httpError status (some s))).2.1.errorText =
          "Optimization failed: " ++ s ∧
        (clickOptimize ui sel (.httpError status (some s))).2.1.errorVisible = true) ∧
      ((clickOptimize ui sel (.httpError status none)).2.2 =
        Outcome.optimizationFailed ("HTTP error! status: " ++ toString status) ∧
       (clickOptimize ui sel (.httpError status none)).2.1.errorText =
        "Optimization failed: " ++ ("HTTP error! status: " ++ toString status)) := by
  intro ui status sel hne
  match sel with
  | [] => exact absurd rfl hne
  | p :: rest =>
    constructor
    · intro s hs
      rw [clickOptimize_cons]
      refine ⟨?_, ?_, rfl⟩ <;>
        simp [handleFetch, responseMessage, settleState, hs]
    · rw [clickOptimize_cons]
      exact ⟨rfl, rfl⟩

/-- Witness for the amended C5: the spec's scenario body
`error = "infeasible target"` surfaces exactly that message. -/
theorem C5_server_error_surfaced_verbatim_witness :
    (clickOptimize demoUI [("Agitator", 3)]
        (.httpError 422 (some "infeasible target"))).2.2 =
      Outcome.optimizationFailed "infeasible target" :=
  ((C5_server_error_surfaced_verbatim demoUI 422 [("Agitator", 3)] (by simp)).1
    "infeasible target" (by decide)).1

/-- C9: the pre-fetch step leaves the submit control disabled (and the
loading indicator shown) while the request is outstanding, and on every
settle path — success, server-reported failure, or transport failure — the
final state goes through the cleanup step, which unconditionally re-enables
the control and hides the indicator. -/
theorem C9_disabled_while_outstanding :
    (∀ ui : UIState, (preFetchState ui).optimizeDisabled = true ∧
      (preFetchState ui).loadingVisible = true) ∧
    (∀ ui : UIState, (settleState ui).optimizeDisabled = false ∧
      (settleState ui).loadingVisible = false) ∧
    (∀ ui fr (sel : List (String × Nat)), sel ≠ [] →
      (clickOptimize ui sel fr).2.1 =
        settleState (handleFetch (preFetchState ui) fr).1 ∧
      (clickOptimize ui sel fr).2.1.optimizeDisabled = false ∧
      (clickOptimize ui sel fr).2.1.loadingVisible = false) := by
  refine ⟨fun ui => ⟨rfl, rfl⟩, fun ui => ⟨rfl, rfl⟩, ?_⟩
  intro ui fr sel hne
  match sel with
  | [] => exact absurd rfl hne
  | p :: rest =>
    rw [clickOptimize_cons]
    exact ⟨rfl, rfl, rfl⟩

/-- Witness for C9 on each of the three settle paths at concrete inputs. -/
theorem C9_disabled_while_outstanding_witness :
    (preFetchState demoUI).optimizeDisabled = true ∧
    (clickOptimize demoUI [("Agitator", 3)]
      (.ok ⟨0, [], none, [], [], [], 0⟩)).2.1.optimizeDisabled = false ∧
    (clickOptimize demoUI [("Agitator", 3)]
      (.httpError 500 none)).2.1.optimizeDisabled = false ∧
    (clickOptimize demoUI [("Agitator", 3)]
      (.transportError "Failed to fetch")).2.1.loadingVisible = false :=
  ⟨(C9_disabled_while_outstanding.1 demoUI).1,
   (C9_disabled_while_outstanding.2.2 demoUI (.ok ⟨0, [], none, [], [], [], 0⟩)
     [("Agitator", 3)] (by simp)).2.1,
   (C9_disabled_while_outstanding.2.2 demoUI (.httpError 500 none)
     [("Agitator", 3)] (by simp)).2.1,
   (C9_disabled_while_outstanding.2.2 demoUI (.transportError "Failed to fetch")
     [("Agitator", 3)] (by simp)).2.2⟩

/-- C10: an empty-string error field in a failure body is treated exactly
like an absent field — the surfaced message is the generic HTTP-status one,
never the empty server message. -/
theorem C10_empty_error_field_is_generic :
    ∀ status : Nat,
      responseMessage status (some "") = responseMessage status none ∧
      responseMessage status none = "HTTP error! status: " ++ toString status ∧
      responseMessage status (some "") ≠ "" := by
  intro status
  have hgen : responseMessage status (some "") =
      "HTTP error! status: " ++ toString status := by
    simp [responseMessage]
  refine ⟨by simp [responseMessage], rfl, ?_⟩
  rw [hgen]
  intro h
  have hlen := congrArg String.length h
  rw [String.length_append] at hlen
  have h20 : ("HTTP error! status: " : String).length = 20 := rfl
  have h0 : ("" : String).length = 0 := rfl
  omega

/-- Witness for C10 at status 500: the empty error field surfaces the
generic message "HTTP error! status: 500". -/
theorem C10_empty_error_field_is_generic_witness :
    responseMessage 500 (some "") = responseMessage 500 none ∧
    responseMessage 500 none = "HTTP error! status: " ++ toString 500 :=
  ⟨(C10_empty_error_field_is_generic 500).1,
   (C10_empty_error_field_is_generic 500).2.1⟩

/-! ### Claim C6 (resulting-skills iteration order) -/

theorem lexLeChars_total : ∀ a b : List Char,
    lexLeChars a b = true ∨ lexLeChars b a = true
  | [], _ => Or.inl rfl
  | _ :: _, [] => Or.inr rfl
  | a :: as, b :: bs => by
    by_cases hab : a < b
    · exact Or.inl (by simp [lexLeChars, hab])
    · by_cases hba : b < a
      · exact Or.inr (by simp [lexLeChars, hba])
      · rcases lexLeChars_total as bs with h | h
        · exact Or.inl (by simp [lexLeChars, hab, hba, h])
        · exact Or.inr (by simp [lexLeChars, hba, hab, h])

theorem lexLeChars_trans : ∀ a b c : List Char,
    lexLeChars a b = true → lexLeChars b c = true → lexLeChars a c = true
  | [], _, _, _, _ => rfl
  | _ :: _, [], _, h1, _ => by simp [lexLeChars] at h1
  | _ :: _, _ :: _, [], _, h2 => by simp [lexLeChars] at h2
  | a :: as, b :: bs, c :: cs, h1, h2 => by
    by_cases hab : a < b
    · by_cases hbc : b < c
      · simp [lexLeChars, lt_trans hab hbc]
      · by_cases hcb : c < b
        · simp [lexLeChars, hbc, hcb] at h2
        · have hac : a < c := lt_of_lt_of_le hab (not_lt.mp hcb)
          simp [lexLeChars, hac]
    · by_cases hba : b < a
      · simp [lexLeChars, hab, hba] at h1
      · have heq : a = b := le_antisymm (not_lt.mp hba) (not_lt.mp hab)
        subst heq
        simp only [lexLeChars, hab, if_neg, if_false] at h1 h2 ⊢
        by_cases hac : a < c
        · simp [hac]
        · by_cases hca : c < a
          · simp [hac, hca] at h2
          · simp [hac, hca] at h1 h2 ⊢
            exact lexLeChars_trans as bs cs h1 h2

/-- C6 as stated is false on the code: with achieved skills
Attack → 5 and Attack Boost → 3, the rendered iteration puts
"Attack Boost" first, although "Attack" strictly precedes "Attack Boost"
in lexicographic order of skill names — the JS default sort key
"name,level" makes the comma compare against the space. -/
theorem C6_counterexample_name_order :
    sortEntries [("Attack", 5), ("Attack Boost", 3)] =
      [("Attack Boost", 3), ("Attack", 5)] ∧
    lexLeChars "Attack".data "Attack Boost".data = true ∧
    "Attack" ≠ "Attack Boost" := by
  refine ⟨?_, by decide, by decide⟩
  rfl

/-- C6 (amended): the Resulting Skills section iterates the
resulting-skills mapping stably sorted in ascending lexicographic order of
the JS default sort key — the string "name,level" — which is a permutation
of the mapping's entries; the skill name alone does not always determine
the order (names that extend one another can invert, as in the
counterexample). -/
theorem C6_sorted_by_entry_key :
    ∀ finalSkills : List (String × Int),
      List.Sorted entryLe (sortEntries finalSkills) ∧
      (sortEntries finalSkills).Perm finalSkills := by
  intro finalSkills
  refine ⟨?_, List.perm_insertionSort entryLe finalSkills⟩
  exact @List.sorted_insertionSort _ entryLe _
    ⟨fun a b => lexLeChars_total _ _⟩
    ⟨fun a b c h1 h2 => lexLeChars_trans _ _ _ h1 h2⟩ finalSkills

/-! ### Claim C7 (skip, target default, MET/BELOW status) -/

theorem foldl_skipNonpos (targetSkills : List (String × Int)) :
    ∀ (l : List (String × Int)) (acc : String),
      l.foldl (fun acc p =>
        if p.2 > 0 then acc ++ skillLine p.1 p.2 (targetOf targetSkills p.1)
        else acc) acc =
      (l.filter (fun p => decide (p.2 > 0))).foldl
        (fun acc p => acc ++ skillLine p.1 p.2 (targetOf targetSkills p.1)) acc := by
  intro l
  induction l with
  | nil => intro acc; rfl
  | cons p rest ih =>
    intro acc
    by_cases h : p.2 > 0
    · simp only [List.foldl_cons, List.filter_cons, if_pos h, decide_eq_true h]
      exact ih _
    · simp only [List.foldl_cons, List.filter_cons, if_neg h,
        decide_eq_false h]
      exact ih _

/-- C7: the Resulting Skills loop skips entries whose achieved level is
≤ 0 (the rendered string is the fold over only the positive entries); the
target level defaults to 0 when the skill is absent from the target
mapping; a status annotation appears exactly when the target is positive
and reads MET when achieved ≥ target, BELOW otherwise; in particular
Attack achieved 5 with target 7 renders "Attack: 5 (Target: 7 - BELOW)",
while target 0 or absent renders "Attack: 5" followed only by the empty
status (no status suffix). -/
theorem C7_skip_default_and_status :
    (∀ finalSkills targetSkills : List (String × Int),
      resultingSkillsHtml finalSkills targetSkills =
        ((sortEntries finalSkills).filter (fun p => decide (p.2 > 0))).foldl
          (fun acc p => acc ++ skillLine p.1 p.2 (targetOf targetSkills p.1)) "") ∧
    (∀ (targets : List (String × Int)) (skill : String),
      targets.find? (fun p => p.1 == skill) = none → targetOf targets skill = 0) ∧
    (∀ level target : Int, target ≤ 0 → skillStatus level target = "") ∧
    (∀ level target : Int, target > 0 →
      skillStatus level target =
        "(Target: " ++ toString target ++ " - " ++
          (if level ≥ target then "MET" else "BELOW") ++ ")") ∧
    resultingSkillsHtml [("Attack", 5)] [("Attack", 7)] =
      "<li>Attack: 5 (Target: 7 - BELOW)</li>" ∧
    resultingSkillsHtml [("Attack", 5)] [("Attack", 0)] = "<li>Attack: 5 </li>" ∧
    resultingSkillsHtml [("Attack", 5)] [] = "<li>Attack: 5 </li>" ∧
    skillStatus 5 0 = "" := by
  refine ⟨?_, ?_, ?_, ?_, rfl, rfl, rfl, rfl⟩
  · intro finalSkills targetSkills
    exact foldl_skipNonpos targetSkills (sortEntries finalSkills) ""
  · intro targets skill h
    simp [targetOf, h]
  · intro level target h
    simp [skillStatus, not_lt.mpr h]
  · intro level target h
    simp [skillStatus, h]

/-- Witness for C7: a concrete absent lookup defaults to target 0, and a
nonpositive target yields the empty status. -/
theorem C7_skip_default_and_status_witness :
    targetOf [("Defense", 2)] "Attack" = 0 ∧ skillStatus 5 0 = "" :=
  ⟨C7_skip_default_and_status.2.1 [("Defense", 2)] "Attack" (by decide),
   C7_skip_default_and_status.2.2.1 5 0 (by decide)⟩

/-! ### Claim C8 (slot counts default to 0) -/

theorem slotCount_getD (o : Option Nat) : slotCount o = o.getD 0 := by
  cases o <;> rfl

/-- C8: the slot-count line of an armor piece shows levels 1-4 as
"L1:n L2:n L3:n L4:n" with every missing slot-level key (and a missing or
entirely empty slots object) displayed as 0, never as a missing value. -/
theorem C8_missing_slot_levels_render_zero :
    (∀ a b c d : Option Nat,
      slotsStr (some ⟨a, b, c, d⟩) =
        "L1:" ++ toString (a.getD 0) ++ " L2:" ++ toString (b.getD 0) ++
        " L3:" ++ toString (c.getD 0) ++ " L4:" ++ toString (d.getD 0)) ∧
    slotsStr (some ⟨none, none, none, none⟩) = "L1:0 L2:0 L3:0 L4:0" ∧
    slotsStr none = "L1:0 L2:0 L3:0 L4:0" ∧
    (∀ piece : ArmorPiece, piece.slots = some ⟨none, none, none, none⟩ →
      pieceLine piece =
        "<li><strong>" ++ piece.pieceType ++ ":</strong> " ++ piece.piece_name ++
        " (Set: " ++ piece.set_name ++ ")<br/>&nbsp;&nbsp;Skills: " ++
        pieceSkillsStr piece.skills ++ "<br/>&nbsp;&nbsp;Slots: " ++
        "L1:0 L2:0 L3:0 L4:0" ++ "</li>") := by
  refine ⟨?_, by rfl, by rfl, ?_⟩
  · intro a b c d
    simp [slotsStr, slotCount_getD]
  · intro piece h
    rw [pieceLine, h]
    rfl

/-- Witness for C8: a concrete piece whose slots object has no keys renders
every slot level as 0. -/
theorem C8_missing_slot_levels_render_zero_witness :
    pieceLine ⟨"Head", "Helm", "SetA", [], some ⟨none, none, none, none⟩⟩ =
      "<li><strong>" ++ "Head" ++ ":</strong> " ++ "Helm" ++
      " (Set: " ++ "SetA" ++ ")<br/>&nbsp;&nbsp;Skills: " ++
      pieceSkillsStr [] ++ "<br/>&nbsp;&nbsp;Slots: " ++
      "L1:0 L2:0 L3:0 L4:0" ++ "</li>" :=
  C8_missing_slot_levels_render_zero.2.2.2
    ⟨"Head", "Helm", "SetA", [], some ⟨none, none, none, none⟩⟩ rfl

end MHBuild
